import Mathlib

deriving instance DecidableEq for Except

/-!
Verification of the dynamic pricing resolution service
(`charj/cards/pricing_service.py`) against its specification.

The Python module is shallowly embedded below: pure helpers become Lean
functions on `Int` (Python integers are unbounded), the Django settings
object becomes an explicit `Settings` record whose fields carry the
`getattr` defaults from the source, and the two external collaborators
(the djstripe local mirror and the Stripe API) become an explicit `World`
state threaded through `get_or_create_price` together with a
`FaultSchedule` that says which external call raises which kind of
exception (Stripe errors versus any other exception), mirroring the
`except` clauses of the source.  The list of `CallEvent`s returned by
`get_or_create_price` records every external call the Python code would
issue, with the arguments the source passes.
-/

namespace Charj

/-- Decimal rendering of a two-digit fraction `n < 100`, zero padded to
width two, as Python fixed-point formatting renders the cents part. -/
def twoDigitFrac (n : Nat) : String :=
  if n < 10 then "0" ++ toString n else toString n

/-- Rendering of the Python float expression `n / 100` under a
two-decimal fixed format.  For the magnitudes accepted by the service the
float division is exact after rounding to two decimals, so the exact
integer computation below agrees with Python. -/
def pyCentsFloat2 (n : Int) : String :=
  (if n < 0 then "-" else "")
    ++ toString (n.natAbs / 100) ++ "." ++ twoDigitFrac (n.natAbs % 100)

/-- Django settings consulted by the pricing service, with the
`getattr` defaults from the source.  `STRIPE_PRODUCT_ID` is optional and
may also be the empty string, which Python treats as falsy. -/
structure Settings where
  STRIPE_MIN_AMOUNT_CENTS : Int := 50
  STRIPE_MAX_AMOUNT_CENTS : Int := 100000
  STRIPE_ALLOWED_INTERVALS : List String := ["day", "week", "month", "year"]
  STRIPE_MAX_INTERVAL_COUNT : Int := 36
  STRIPE_PRODUCT_ID : Option String := none

/-- Embedding of `validate_pricing_parameters`.  A raised
`InvalidPricingParametersError` becomes `Except.error` carrying the
message the source formats. -/
def validate_pricing_parameters (settings : Settings)
    (amount_cents : Int) (interval : String) (interval_count : Int) :
    Except String Unit :=
  let min_amount := settings.STRIPE_MIN_AMOUNT_CENTS
  let max_amount := settings.STRIPE_MAX_AMOUNT_CENTS
  if amount_cents < min_amount then
    .error ("Amount must be at least " ++ toString min_amount
      ++ " cents ($" ++ pyCentsFloat2 min_amount ++ ")")
  else if amount_cents > max_amount then
    .error ("Amount cannot exceed " ++ toString max_amount
      ++ " cents ($" ++ pyCentsFloat2 max_amount ++ ")")
  else
    let allowed_intervals := settings.STRIPE_ALLOWED_INTERVALS
    if interval ∉ allowed_intervals then
      .error ("Invalid interval '" ++ interval ++ "'. Must be one of: "
        ++ String.intercalate ", " allowed_intervals)
    else
      let max_interval_count := settings.STRIPE_MAX_INTERVAL_COUNT
      if interval_count < 1 then
        .error "Interval count must be at least 1"
      else if interval_count > max_interval_count then
        .error ("Interval count cannot exceed " ++ toString max_interval_count)
      else
        .ok ()

/-- Embedding of `generate_lookup_key`: the Python f-string
interpolation of the three fields, Python `str` of an integer agreeing
with Lean `toString` on `Int`. -/
def generate_lookup_key (amount_cents : Int) (interval : String)
    (interval_count : Int) : String :=
  interval ++ "_" ++ toString interval_count ++ "_" ++ toString amount_cents

/-- A price object as the service sees it (djstripe `Price` rows and
Stripe API price objects): an id, a lookup key and an active flag. -/
structure PriceRec where
  id : String
  lookup_key : String
  active : Bool
  deriving DecidableEq, Repr

/-- Combined state of the two external collaborators: the local djstripe
mirror, the Stripe-side price list, and a counter from which Stripe
mints fresh price ids. -/
structure World where
  localPrices : List PriceRec
  remotePrices : List PriceRec
  nextId : Nat
  deriving DecidableEq, Repr

/-- Kinds of exception an external call can raise: `stripe.error.StripeError`
(and subclasses) versus any other exception.  The source's two `except`
clauses distinguish exactly these. -/
inductive Exc where
  | stripeError (msg : String)
  | otherError (msg : String)
  deriving DecidableEq, Repr

/-- Which of the five external calls of one `get_or_create_price` run
raise, and what they raise.  `none` means the call succeeds. -/
structure FaultSchedule where
  localQuery : Option Exc := none
  stripeList : Option Exc := none
  syncRemote : Option Exc := none
  stripeCreate : Option Exc := none
  syncCreated : Option Exc := none
  deriving DecidableEq, Repr

/-- The local mirror query
`Price.objects.filter(lookup_key=..., active=True).first()`. -/
def findLocalActive (w : World) (key : String) : Option PriceRec :=
  w.localPrices.find? (fun p => p.lookup_key == key && p.active)

/-- The Stripe query `stripe.Price.list(lookup_keys=[key], active=True)`. -/
def listRemoteActive (w : World) (key : String) : List PriceRec :=
  w.remotePrices.filter (fun p => p.lookup_key == key && p.active)

/-- The mirror write `Price.sync_from_stripe_data(price)`: upsert by id. -/
def syncFromStripeData (w : World) (p : PriceRec) : World :=
  if w.localPrices.any (fun q => q.id == p.id) then
    { w with localPrices :=
        w.localPrices.map (fun q => if q.id == p.id then p else q) }
  else
    { w with localPrices := w.localPrices ++ [p] }

/-- The Stripe call `stripe.Price.create(...)`: mints a fresh id, attaches
the lookup key to the new price (transferring it away from any price that
held it, per `transfer_lookup_key=True`) and returns the new price. -/
def stripeCreatePrice (w : World) (key : String) : PriceRec × World :=
  let new_price : PriceRec :=
    { id := "price_" ++ toString w.nextId, lookup_key := key, active := true }
  let cleared := w.remotePrices.map
    (fun q => if q.lookup_key == key then { q with lookup_key := "" } else q)
  (new_price,
    { w with remotePrices := cleared ++ [new_price], nextId := w.nextId + 1 })

/-- External calls issued during one `get_or_create_price` run, with the
arguments the source passes.  `stripeCreate` records the full argument
list of `stripe.Price.create`, including the constant currency and the
provenance metadata dict. -/
inductive CallEvent where
  | localQuery (key : String)
  | stripeList (key : String)
  | stripeCreate (product : String) (unit_amount : Int) (currency : String)
      (interval : String) (interval_count : Int) (key : String)
      (transfer : Bool) (metadata : List (String × String))
  | syncLocal (priceId : String)
  deriving DecidableEq, Repr

/-- Result of a `get_or_create_price` call: a returned price id, one of
the two raised `PricingError` family errors, or an uncaught exception
propagating out of the function. -/
inductive Outcome where
  | ok (priceId : String)
  | invalidParams (msg : String)
  | pricingError (msg : String)
  | raised (e : Exc)
  deriving DecidableEq, Repr

/-- Tier 3 of `get_or_create_price` (lines 163-216 of the source): the
product-id gate, the `stripe.Price.create` call whose `StripeError` is
wrapped into `PricingError`, and the final unguarded mirror sync. -/
def tier3_create (settings : Settings) (fs : FaultSchedule) (w : World)
    (amount_cents : Int) (interval : String) (interval_count : Int)
    (lookup_key : String) (evts : List CallEvent) :
    Outcome × World × List CallEvent :=
  let notConfigured : Outcome :=
    .pricingError "STRIPE_PRODUCT_ID not configured. Cannot create dynamic prices."
  match settings.STRIPE_PRODUCT_ID with
  | none => (notConfigured, w, evts)
  | some product_id =>
    if product_id = "" then
      (notConfigured, w, evts)
    else
      let evc := evts ++ [CallEvent.stripeCreate product_id amount_cents "usd"
        interval interval_count lookup_key true
        [("created_by", "charj_pricing_service"),
         ("amount_cents", toString amount_cents),
         ("interval", interval),
         ("interval_count", toString interval_count)]]
      match fs.stripeCreate with
      | some (.stripeError m) =>
        (.pricingError ("Failed to create price: " ++ m), w, evc)
      | some (.otherError m) => (.raised (.otherError m), w, evc)
      | none =>
        let created := stripeCreatePrice w lookup_key
        let new_price := created.1
        let w1 := created.2
        let evs := evc ++ [CallEvent.syncLocal new_price.id]
        match fs.syncCreated with
        | some e => (.raised e, w1, evs)
        | none => (.ok new_price.id, syncFromStripeData w1 new_price, evs)

/-- Embedding of `get_or_create_price`: validation, then the three
resolution tiers.  Tier 1 catches every exception; tier 2 catches only
`StripeError`, so a `StripeError` anywhere in its `try` block (the list
call or the mirror sync) falls through to tier 3 while any other
exception propagates. -/
def get_or_create_price (settings : Settings) (fs : FaultSchedule) (w : World)
    (amount_cents : Int) (interval : String) (interval_count : Int) :
    Outcome × World × List CallEvent :=
  match validate_pricing_parameters settings amount_cents interval interval_count with
  | .error msg => (.invalidParams msg, w, [])
  | .ok _ =>
    let lookup_key := generate_lookup_key amount_cents interval interval_count
    let tier1Found : Option PriceRec :=
      match fs.localQuery with
      | some _ => none
      | none => findLocalActive w lookup_key
    let ev1 : List CallEvent := [CallEvent.localQuery lookup_key]
    match tier1Found with
    | some local_price => (.ok local_price.id, w, ev1)
    | none =>
      let ev2 := ev1 ++ [CallEvent.stripeList lookup_key]
      match fs.stripeList with
      | some (.otherError m) => (.raised (.otherError m), w, ev2)
      | some (.stripeError _) =>
        tier3_create settings fs w amount_cents interval interval_count lookup_key ev2
      | none =>
        match listRemoteActive w lookup_key with
        | [] =>
          tier3_create settings fs w amount_cents interval interval_count lookup_key ev2
        | stripe_price :: _ =>
          let evs := ev2 ++ [CallEvent.syncLocal stripe_price.id]
          match fs.syncRemote with
          | some (.stripeError _) =>
            tier3_create settings fs w amount_cents interval interval_count lookup_key evs
          | some (.otherError m) => (.raised (.otherError m), w, evs)
          | none => (.ok stripe_price.id, syncFromStripeData w stripe_price, evs)

/-- Embedding of `format_price_display`: the float test
`dollars == int(dollars)` holds exactly when the amount is a multiple of
100, and the two-decimal rendering is exact for integral cents. -/
def format_price_display (amount_cents : Int) : String :=
  if amount_cents % 100 == 0 then
    "$" ++ toString (amount_cents / 100)
  else
    "$" ++ pyCentsFloat2 amount_cents

/-- Embedding of `format_frequency_display`; the two Python dict `get`
lookups become conditional chains over the same four keys. -/
def format_frequency_display (interval : String) (interval_count : Int) : String :=
  if interval_count == 1 then
    if interval == "day" then "daily"
    else if interval == "week" then "weekly"
    else if interval == "month" then "monthly"
    else if interval == "year" then "yearly"
    else "every " ++ interval
  else
    let interval_plural :=
      if interval == "day" then "days"
      else if interval == "week" then "weeks"
      else if interval == "month" then "months"
      else if interval == "year" then "years"
      else interval ++ "s"
    "every " ++ toString interval_count ++ " " ++ interval_plural

/-! ### Basic formatting facts -/

/-- The zero-padded cents fraction always has width two. -/
theorem twoDigitFrac_length : ∀ m, m < 100 → (twoDigitFrac m).length = 2 := by
  decide

/-- C7: for every shape, the lookup key is the pure string
`interval ++ "_" ++ str interval_count ++ "_" ++ str amount_cents`, and
two calls on the same shape return identical strings. -/
theorem C7_lookup_key_pure_deterministic
    (amount_cents : Int) (interval : String) (interval_count : Int) :
    generate_lookup_key amount_cents interval interval_count =
      interval ++ "_" ++ toString interval_count ++ "_" ++ toString amount_cents
    ∧ generate_lookup_key amount_cents interval interval_count =
      generate_lookup_key amount_cents interval interval_count :=
  ⟨rfl, rfl⟩

/-- C8: `format_price_display` renders multiples of 100 as the bare
dollar integer after a dollar sign, renders every other amount with
exactly two decimal places, and satisfies the three concrete examples of
the specification. -/
theorem C8_format_amount (amount_cents : Int) :
    (amount_cents % 100 = 0 →
      format_price_display amount_cents = "$" ++ toString (amount_cents / 100))
    ∧ (amount_cents % 100 ≠ 0 →
      ∃ intPart frac, format_price_display amount_cents = "$" ++ intPart ++ "." ++ frac
        ∧ frac.length = 2)
    ∧ format_price_display 100 = "$1"
    ∧ format_price_display 199 = "$1.99"
    ∧ format_price_display 50 = "$0.50" := by
  refine ⟨?_, ?_, by decide, by decide, by decide⟩
  · intro h
    simp [format_price_display, h]
  · intro h
    refine ⟨(if amount_cents < 0 then "-" else "") ++ toString (amount_cents.natAbs / 100),
      twoDigitFrac (amount_cents.natAbs % 100), ?_, ?_⟩
    · simp [format_price_display, h, pyCentsFloat2, String.append_assoc]
    · exact twoDigitFrac_length _ (Nat.mod_lt _ (by omega))

/-- C8 witness: a concrete non-whole-dollar amount rendered with two
decimal places. -/
theorem C8_format_amount_witness :
    (250 : Int) % 100 ≠ 0 ∧
      ∃ intPart frac, format_price_display 250 = "$" ++ intPart ++ "." ++ frac
        ∧ frac.length = 2 :=
  ⟨by decide, (C8_format_amount 250).2.1 (by decide)⟩

/-- C9: `format_frequency_display` yields the friendly adverb for a
count of one (with the `every interval` fallback for unknown intervals),
the `every count plural` form for counts above one (pluralizing unknown
intervals with a trailing s), and satisfies the three concrete examples
of the specification. -/
theorem C9_format_frequency (interval : String) (interval_count : Int) :
    (interval_count = 1 → format_frequency_display interval interval_count =
      (if interval = "day" then "daily"
       else if interval = "week" then "weekly"
       else if interval = "month" then "monthly"
       else if interval = "year" then "yearly"
       else "every " ++ interval))
    ∧ (1 < interval_count → format_frequency_display interval interval_count =
      "every " ++ toString interval_count ++ " " ++
        (if interval = "day" then "days"
         else if interval = "week" then "weeks"
         else if interval = "month" then "months"
         else if interval = "year" then "years"
         else interval ++ "s"))
    ∧ format_frequency_display "month" 1 = "monthly"
    ∧ format_frequency_display "month" 3 = "every 3 months"
    ∧ format_frequency_display "day" 7 = "every 7 days" := by
  refine ⟨?_, ?_, by decide, by decide, by decide⟩
  · intro h
    subst h
    simp [format_frequency_display, beq_iff_eq]
  · intro h
    have h1 : (interval_count == 1) = false := by simp; omega
    simp [format_frequency_display, h1, beq_iff_eq]

/-- C9 witness: the friendly adverb branch at a concrete known interval. -/
theorem C9_format_frequency_witness :
    format_frequency_display "week" 1 =
      (if "week" = "day" then "daily"
       else if "week" = "week" then "weekly"
       else if "week" = "month" then "monthly"
       else if "week" = "year" then "yearly"
       else "every " ++ "week") :=
  (C9_format_frequency "week" 1).1 rfl

/-- C4: validation succeeds exactly when the amount, interval and
interval count lie within the configured bounds; the first violated
check in the order amount-low, amount-high, interval, count-low,
count-high determines the error and its message (the interval message
starting with the words Invalid interval); and the boundary instances
from the specification hold at the default settings. -/
theorem C4_validate (s : Settings) (a : Int) (i : String) (c : Int) :
    (validate_pricing_parameters s a i c = .ok () ↔
      (s.STRIPE_MIN_AMOUNT_CENTS ≤ a ∧ a ≤ s.STRIPE_MAX_AMOUNT_CENTS ∧
        i ∈ s.STRIPE_ALLOWED_INTERVALS ∧ 1 ≤ c ∧ c ≤ s.STRIPE_MAX_INTERVAL_COUNT))
    ∧ (a < s.STRIPE_MIN_AMOUNT_CENTS →
        validate_pricing_parameters s a i c =
          .error ("Amount must be at least " ++ toString s.STRIPE_MIN_AMOUNT_CENTS
            ++ " cents ($" ++ pyCentsFloat2 s.STRIPE_MIN_AMOUNT_CENTS ++ ")"))
    ∧ (s.STRIPE_MIN_AMOUNT_CENTS ≤ a → s.STRIPE_MAX_AMOUNT_CENTS < a →
        validate_pricing_parameters s a i c =
          .error ("Amount cannot exceed " ++ toString s.STRIPE_MAX_AMOUNT_CENTS
            ++ " cents ($" ++ pyCentsFloat2 s.STRIPE_MAX_AMOUNT_CENTS ++ ")"))
    ∧ (s.STRIPE_MIN_AMOUNT_CENTS ≤ a → a ≤ s.STRIPE_MAX_AMOUNT_CENTS →
        i ∉ s.STRIPE_ALLOWED_INTERVALS →
        ∃ rest, validate_pricing_parameters s a i c =
          .error ("Invalid interval" ++ rest))
    ∧ (s.STRIPE_MIN_AMOUNT_CENTS ≤ a → a ≤ s.STRIPE_MAX_AMOUNT_CENTS →
        i ∈ s.STRIPE_ALLOWED_INTERVALS → c < 1 →
        validate_pricing_parameters s a i c =
          .error "Interval count must be at least 1")
    ∧ (s.STRIPE_MIN_AMOUNT_CENTS ≤ a → a ≤ s.STRIPE_MAX_AMOUNT_CENTS →
        i ∈ s.STRIPE_ALLOWED_INTERVALS → 1 ≤ c → s.STRIPE_MAX_INTERVAL_COUNT < c →
        validate_pricing_parameters s a i c =
          .error ("Interval count cannot exceed " ++ toString s.STRIPE_MAX_INTERVAL_COUNT))
    ∧ validate_pricing_parameters {} 49 "month" 1 ≠ .ok ()
    ∧ validate_pricing_parameters {} 50 "month" 1 = .ok ()
    ∧ validate_pricing_parameters {} 100000 "month" 1 = .ok ()
    ∧ validate_pricing_parameters {} 100001 "month" 1 ≠ .ok ()
    ∧ validate_pricing_parameters {} 500 "month" 0 ≠ .ok ()
    ∧ validate_pricing_parameters {} 500 "month" 1 = .ok ()
    ∧ validate_pricing_parameters {} 500 "month" 36 = .ok ()
    ∧ validate_pricing_parameters {} 500 "month" 37 ≠ .ok () := by
  refine ⟨?_, ?_, ?_, ?_, ?_, ?_, by decide, by decide, by decide, by decide,
    by decide, by decide, by decide, by decide⟩
  · simp only [validate_pricing_parameters]
    split_ifs with h1 h2 h3 h4 h5 <;> simp_all
  · intro h
    simp [validate_pricing_parameters, h]
  · intro h1 h2
    have e1 : ¬ a < s.STRIPE_MIN_AMOUNT_CENTS := by omega
    simp [validate_pricing_parameters, e1, h2]
  · intro h1 h2 h3
    refine ⟨" '" ++ i ++ "'. Must be one of: "
      ++ String.intercalate ", " s.STRIPE_ALLOWED_INTERVALS, ?_⟩
    have e1 : ¬ a < s.STRIPE_MIN_AMOUNT_CENTS := by omega
    have e2 : ¬ a > s.STRIPE_MAX_AMOUNT_CENTS := by omega
    simp [validate_pricing_parameters, e1, e2, h3]
    constructor
  · intro h1 h2 h3 h4
    have e1 : ¬ a < s.STRIPE_MIN_AMOUNT_CENTS := by omega
    have e2 : ¬ a > s.STRIPE_MAX_AMOUNT_CENTS := by omega
    simp [validate_pricing_parameters, e1, e2, h3, h4]
  · intro h1 h2 h3 h4 h5
    have e1 : ¬ a < s.STRIPE_MIN_AMOUNT_CENTS := by omega
    have e2 : ¬ a > s.STRIPE_MAX_AMOUNT_CENTS := by omega
    have e3 : ¬ c < 1 := by omega
    simp [validate_pricing_parameters, e1, e2, h3, e3, h5]

/-- C4 witness: the amount-too-low message at the default settings. -/
theorem C4_validate_witness :
    validate_pricing_parameters {} 49 "month" 1 =
      .error ("Amount must be at least " ++ toString (50 : Int)
        ++ " cents ($" ++ pyCentsFloat2 50 ++ ")") :=
  (C4_validate {} 49 "month" 1).2.1 (by decide)

/-! ### Resolution claims -/

/-- C2 counterexample: with no product configured but an active matching
price in the local mirror, `get_or_create_price` returns that id instead
of failing with the configuration error, so the configuration failure is
not unconditional in the cache state. -/
theorem C2_counterexample :
    (get_or_create_price { STRIPE_PRODUCT_ID := none } {}
        { localPrices := [{ id := "price_local", lookup_key := "month_1_500", active := true }],
          remotePrices := [], nextId := 0 } 500 "month" 1).1 = .ok "price_local" := by
  decide

/-- C2 amended: when no product id is configured (absent or empty) and
neither the local mirror nor the remote lookup yields a matching active
price, `get_or_create_price` fails with the `PricingError` whose message
states that `STRIPE_PRODUCT_ID` is not configured. -/
theorem C2_config_error (s : Settings) (fs : FaultSchedule) (w : World)
    (a : Int) (i : String) (c : Int)
    (hv : validate_pricing_parameters s a i c = .ok ())
    (hq : fs.localQuery = none)
    (hl : findLocalActive w (generate_lookup_key a i c) = none)
    (hs : fs.stripeList = none)
    (hr : listRemoteActive w (generate_lookup_key a i c) = [])
    (hp : s.STRIPE_PRODUCT_ID = none ∨ s.STRIPE_PRODUCT_ID = some "") :
    (get_or_create_price s fs w a i c).1 =
      .pricingError "STRIPE_PRODUCT_ID not configured. Cannot create dynamic prices." := by
  rcases hp with hp | hp <;>
    simp [get_or_create_price, hv, hq, hl, hs, hr, tier3_create, hp]

/-- C2 witness: the configuration error on the empty world at the
default settings, which leave the product id unset. -/
theorem C2_config_error_witness :
    (get_or_create_price {} {} { localPrices := [], remotePrices := [], nextId := 0 }
        500 "month" 1).1 =
      .pricingError "STRIPE_PRODUCT_ID not configured. Cannot create dynamic prices." :=
  C2_config_error {} {} { localPrices := [], remotePrices := [], nextId := 0 }
    500 "month" 1 (by decide) rfl (by decide) rfl (by decide) (Or.inl rfl)

/-- C1 counterexample: a run in which tier 3 successfully creates the
price but the final mirror sync raises a non-Stripe exception; the call
propagates the exception instead of returning the created id, so the
mirror write is not fire-and-forget. -/
theorem C1_counterexample :
    (get_or_create_price { STRIPE_PRODUCT_ID := some "prod_123" }
        { syncCreated := some (.otherError "database unavailable") }
        { localPrices := [], remotePrices := [], nextId := 0 } 500 "month" 1).1
      = .raised (.otherError "database unavailable")
    ∧ (get_or_create_price { STRIPE_PRODUCT_ID := some "prod_123" }
        { syncCreated := some (.otherError "database unavailable") }
        { localPrices := [], remotePrices := [], nextId := 0 } 500 "month" 1).1
      ≠ .ok "price_0" := by
  constructor
  · decide
  · decide

/-- C1 amended: mirror synchronization after a successful remote
resolution is not fire-and-forget.  After a successful tier-3 creation
any exception raised by the sync propagates and fails the call, and
after a tier-2 find a Stripe error raised by the sync makes the call
fall through to the creation tier instead of returning the found id. -/
theorem C1_mirror_sync_failure (s : Settings) (fs : FaultSchedule) (w : World)
    (a : Int) (i : String) (c : Int) (pid : String) (e : Exc)
    (p : PriceRec) (rest : List PriceRec) (m : String) :
    (validate_pricing_parameters s a i c = .ok () →
     fs.localQuery = none →
     findLocalActive w (generate_lookup_key a i c) = none →
     fs.stripeList = none →
     listRemoteActive w (generate_lookup_key a i c) = [] →
     s.STRIPE_PRODUCT_ID = some pid → pid ≠ "" →
     fs.stripeCreate = none → fs.syncCreated = some e →
     (get_or_create_price s fs w a i c).1 = .raised e)
    ∧ (validate_pricing_parameters s a i c = .ok () →
       fs.localQuery = none →
       findLocalActive w (generate_lookup_key a i c) = none →
       fs.stripeList = none →
       listRemoteActive w (generate_lookup_key a i c) = p :: rest →
       fs.syncRemote = some (.stripeError m) →
       get_or_create_price s fs w a i c =
         tier3_create s fs w a i c (generate_lookup_key a i c)
           [CallEvent.localQuery (generate_lookup_key a i c),
            CallEvent.stripeList (generate_lookup_key a i c),
            CallEvent.syncLocal p.id]) := by
  constructor
  · intro hv hq hl hs hr hp hpe hc he
    simp [get_or_create_price, hv, hq, hl, hs, hr, tier3_create, hp, hpe, hc, he]
  · intro hv hq hl hs hr hsync
    simp [get_or_create_price, hv, hq, hl, hs, hr, hsync]

/-- C1 witness: the tier-3 sync failure instantiated on the empty
world. -/
theorem C1_mirror_sync_failure_witness :
    (get_or_create_price { STRIPE_PRODUCT_ID := some "prod_123" }
        { syncCreated := some (.otherError "mirror write failed") }
        { localPrices := [], remotePrices := [], nextId := 0 } 500 "month" 1).1
      = .raised (.otherError "mirror write failed") :=
  (C1_mirror_sync_failure { STRIPE_PRODUCT_ID := some "prod_123" }
      { syncCreated := some (.otherError "mirror write failed") }
      { localPrices := [], remotePrices := [], nextId := 0 }
      500 "month" 1 "prod_123" (.otherError "mirror write failed")
      { id := "", lookup_key := "", active := false } [] "").1
    (by decide) rfl (by decide) rfl (by decide) rfl (by decide) rfl rfl

/-- C5 counterexample: a non-Stripe exception raised by the remote
lookup call propagates out of `get_or_create_price`, refuting the claim
that every failure in the lookup tiers is swallowed. -/
theorem C5_counterexample :
    (get_or_create_price { STRIPE_PRODUCT_ID := some "prod_123" }
        { stripeList := some (.otherError "network timeout") }
        { localPrices := [], remotePrices := [], nextId := 0 } 500 "month" 1).1
      = .raised (.otherError "network timeout") := by
  decide

/-- Every `stripe.Price.create` call issued by the creation tier carries
the constant currency string, or was already present in the accumulated
event list. -/
theorem tier3_create_event_currency (s : Settings) (fs : FaultSchedule) (w : World)
    (a : Int) (i : String) (c : Int) (k : String) (evts : List CallEvent)
    (pid : String) (ua : Int) (cur : String) (i2 : String) (ic2 : Int)
    (k2 : String) (tk : Bool) (md : List (String × String))
    (hmem : CallEvent.stripeCreate pid ua cur i2 ic2 k2 tk md ∈
      (tier3_create s fs w a i c k evts).2.2) :
    cur = "usd" ∨ CallEvent.stripeCreate pid ua cur i2 ic2 k2 tk md ∈ evts := by
  unfold tier3_create at hmem
  split at hmem
  · right; exact hmem
  · split at hmem
    · right; exact hmem
    · split at hmem
      · rcases List.mem_append.mp hmem with h | h
        · exact Or.inr h
        · injection List.mem_singleton.mp h with h1 h2 h3 h4 h5 h6 h7 h8
          exact Or.inl h3
      · rcases List.mem_append.mp hmem with h | h
        · exact Or.inr h
        · injection List.mem_singleton.mp h with h1 h2 h3 h4 h5 h6 h7 h8
          exact Or.inl h3
      · split at hmem <;>
        · rcases List.mem_append.mp hmem with h | h
          · rcases List.mem_append.mp h with h2 | h2
            · exact Or.inr h2
            · injection List.mem_singleton.mp h2 with h1 h2 h3 h4 h5 h6 h7 h8
              exact Or.inl h3
          · exact CallEvent.noConfusion (List.mem_singleton.mp h)

/-- C10: every price-creation call a `get_or_create_price` run issues is
requested with currency usd, whatever the input shape, settings, world
state and fault schedule. -/
theorem C10_currency_usd (s : Settings) (fs : FaultSchedule) (w : World)
    (a : Int) (i : String) (c : Int)
    (pid : String) (ua : Int) (cur : String) (i2 : String) (ic2 : Int)
    (k2 : String) (tk : Bool) (md : List (String × String))
    (hmem : CallEvent.stripeCreate pid ua cur i2 ic2 k2 tk md ∈
      (get_or_create_price s fs w a i c).2.2) :
    cur = "usd" := by
  rcases hf : findLocalActive w (generate_lookup_key a i c) with _ | p
  all_goals rcases hr : listRemoteActive w (generate_lookup_key a i c) with _ | ⟨q, tail⟩
  all_goals unfold get_or_create_price at hmem
  all_goals simp only [hf, hr] at hmem
  all_goals repeat' split at hmem
  all_goals
    first
      | exact (tier3_create_event_currency _ _ _ _ _ _ _ _ _ _ _ _ _ _ _ _
          hmem).resolve_right (by simp)
      | simp at hmem

/-- C10 witness: the creation event of a concrete run, with its constant
currency. -/
theorem C10_currency_usd_witness :
    CallEvent.stripeCreate "prod_123" 500 "usd" "month" 1 "month_1_500" true
        [("created_by", "charj_pricing_service"), ("amount_cents", "500"),
         ("interval", "month"), ("interval_count", "1")] ∈
      (get_or_create_price { STRIPE_PRODUCT_ID := some "prod_123" } {}
        { localPrices := [], remotePrices := [], nextId := 0 } 500 "month" 1).2.2
    ∧ ("usd" : String) = "usd" :=
  ⟨by decide,
    C10_currency_usd { STRIPE_PRODUCT_ID := some "prod_123" } {}
      { localPrices := [], remotePrices := [], nextId := 0 } 500 "month" 1
      "prod_123" 500 "usd" "month" 1 "month_1_500" true
      [("created_by", "charj_pricing_service"), ("amount_cents", "500"),
       ("interval", "month"), ("interval_count", "1")] (by decide)⟩

/-! ### Lookup key injectivity -/

/-- Appending to the accumulator of the core decimal digit loop
commutes with running it on an empty accumulator. -/
theorem toDigitsCore_append :
    ∀ (fuel n : Nat) (ds : List Char),
      Nat.toDigitsCore 10 fuel n ds = Nat.toDigitsCore 10 fuel n [] ++ ds := by
  intro fuel
  induction fuel with
  | zero => intro n ds; simp [Nat.toDigitsCore]
  | succ fuel ih =>
    intro n ds
    simp only [Nat.toDigitsCore]
    by_cases h : n / 10 = 0
    · simp [h]
    · simp only [h, if_false]
      rw [ih (n / 10) (Nat.digitChar (n % 10) :: ds),
        ih (n / 10) (Nat.digitChar (n % 10) :: [])]
      simp

/-- The digit loop ignores its fuel once the fuel exceeds the number. -/
theorem toDigitsCore_fuel (n : Nat) :
    ∀ (fuel1 fuel2 : Nat) (ds : List Char), n < fuel1 → n < fuel2 →
      Nat.toDigitsCore 10 fuel1 n ds = Nat.toDigitsCore 10 fuel2 n ds := by
  induction n using Nat.strong_induction_on with
  | _ n ih =>
    intro fuel1 fuel2 ds h1 h2
    match fuel1, fuel2 with
    | f1 + 1, f2 + 1 =>
      simp only [Nat.toDigitsCore]
      by_cases h : n / 10 = 0
      · simp [h]
      · simp only [h, if_false]
        have hpos : 0 < n := by
          rcases Nat.eq_zero_or_pos n with rfl | hp
          · simp at h
          · exact hp
        have hlt : n / 10 < n := Nat.div_lt_self hpos (by omega)
        exact ih (n / 10) hlt f1 f2 _ (by omega) (by omega)

/-- Reading a decimal digit character back recovers the digit. -/
theorem digitChar_val : ∀ d, d < 10 → (Nat.digitChar d).toNat - 48 = d := by decide

/-- Folding the decimal digits of a number back together recovers it. -/
theorem foldl_toDigits (n : Nat) :
    List.foldl (fun acc ch => acc * 10 + (ch.toNat - 48)) 0 (Nat.toDigits 10 n) = n := by
  induction n using Nat.strong_induction_on with
  | _ n ih =>
    have hmod : n % 10 < 10 := Nat.mod_lt n (by omega)
    have hdm := Nat.div_add_mod n 10
    unfold Nat.toDigits
    simp only [Nat.toDigitsCore]
    by_cases h : n / 10 = 0
    · simp [h, digitChar_val (n % 10) hmod]
      omega
    · have hpos : 0 < n := by
        rcases Nat.eq_zero_or_pos n with rfl | hp
        · simp at h
        · exact hp
      have hlt : n / 10 < n := Nat.div_lt_self hpos (by omega)
      simp only [h, if_false]
      rw [toDigitsCore_append n (n / 10) (Nat.digitChar (n % 10) :: []),
        toDigitsCore_fuel (n / 10) n (n / 10 + 1) [] (by omega) (by omega)]
      rw [List.foldl_append]
      have := ih (n / 10) hlt
      unfold Nat.toDigits at this
      rw [this]
      simp [digitChar_val (n % 10) hmod]
      omega

/-- Decimal digit lists are unique per number. -/
theorem toDigits_ten_inj (m n : Nat) (h : Nat.toDigits 10 m = Nat.toDigits 10 n) :
    m = n := by
  have hm := foldl_toDigits m
  have hn := foldl_toDigits n
  rw [h] at hm
  omega

/-- No decimal digit renders as an underscore. -/
theorem digitChar_ne_underscore : ∀ d, d < 10 → Nat.digitChar d ≠ '_' := by decide

/-- The digit loop emits no underscore beyond those of its accumulator. -/
theorem toDigitsCore_no_underscore :
    ∀ (fuel n : Nat) (ds : List Char), (∀ ch ∈ ds, ch ≠ '_') →
      ∀ ch ∈ Nat.toDigitsCore 10 fuel n ds, ch ≠ '_' := by
  intro fuel
  induction fuel with
  | zero =>
    intro n ds hds
    simpa [Nat.toDigitsCore] using hds
  | succ fuel ih =>
    intro n ds hds
    have hmod : n % 10 < 10 := Nat.mod_lt n (by omega)
    simp only [Nat.toDigitsCore]
    by_cases h : n / 10 = 0
    · simp only [h, if_pos]
      intro ch hch
      rcases List.mem_cons.mp hch with rfl | hch
      · exact digitChar_ne_underscore _ hmod
      · exact hds ch hch
    · simp only [h, if_false]
      refine ih (n / 10) _ ?_
      intro ch hch
      rcases List.mem_cons.mp hch with rfl | hch
      · exact digitChar_ne_underscore _ hmod
      · exact hds ch hch

/-- The characters of the decimal rendering of a natural number. -/
theorem repr_data_eq (n : Nat) : (Nat.repr n).data = Nat.toDigits 10 n := rfl

/-- The decimal rendering of a natural number contains no underscore. -/
theorem repr_no_underscore (n : Nat) : ∀ ch ∈ (Nat.repr n).data, ch ≠ '_' := by
  rw [repr_data_eq]
  exact toDigitsCore_no_underscore (n + 1) n [] (by simp)

/-- Decimal renderings are unique per natural number. -/
theorem Nat_repr_inj (m n : Nat) (h : Nat.repr m = Nat.repr n) : m = n :=
  toDigits_ten_inj m n (by
    have := congrArg String.data h
    rwa [repr_data_eq, repr_data_eq] at this)

/-- On nonnegative integers, integer rendering agrees with natural
number rendering. -/
theorem Int_toString_nonneg (a : Int) (h : 0 ≤ a) : toString a = Nat.repr a.toNat := by
  cases a with
  | ofNat m => rfl
  | negSucc m => exact absurd h (by simp)

/-- A separator-terminated decomposition of a character list is unique
when the suffixes are separator free. -/
theorem append_single_sep_inj (sep : Char) :
    ∀ (as cs bs ds : List Char), (∀ ch ∈ bs, ch ≠ sep) → (∀ ch ∈ ds, ch ≠ sep) →
      as ++ sep :: bs = cs ++ sep :: ds → as = cs ∧ bs = ds := by
  intro as
  induction as with
  | nil =>
    intro cs bs ds hbs hds h
    cases cs with
    | nil => simpa using h
    | cons c cs2 =>
      simp only [List.nil_append, List.cons_append, List.cons.injEq] at h
      obtain ⟨rfl, h2⟩ := h
      exact absurd rfl
        (hbs sep (h2 ▸ List.mem_append_right cs2 (List.mem_cons_self sep ds)))
  | cons x as2 ih =>
    intro cs bs ds hbs hds h
    cases cs with
    | nil =>
      simp only [List.cons_append, List.nil_append, List.cons.injEq] at h
      obtain ⟨h1, h2⟩ := h
      exact absurd rfl
        (hds sep (h2 ▸ List.mem_append_right as2 (List.mem_cons_self sep bs)))
    | cons c cs2 =>
      simp only [List.cons_append, List.cons.injEq] at h
      obtain ⟨rfl, h2⟩ := h
      obtain ⟨rfl, rfl⟩ := ih cs2 bs ds hbs hds h2
      exact ⟨rfl, rfl⟩

/-- C6: two valid shapes (nonnegative amount, positive interval count)
with the same lookup key are the same shape: the key is injective. -/
theorem C6_lookup_key_unique (a1 a2 c1 c2 : Int) (i1 i2 : String)
    (ha1 : 0 ≤ a1) (ha2 : 0 ≤ a2) (hc1 : 1 ≤ c1) (hc2 : 1 ≤ c2)
    (h : generate_lookup_key a1 i1 c1 = generate_lookup_key a2 i2 c2) :
    a1 = a2 ∧ i1 = i2 ∧ c1 = c2 := by
  unfold generate_lookup_key at h
  rw [Int_toString_nonneg a1 ha1, Int_toString_nonneg a2 ha2,
    Int_toString_nonneg c1 (by omega), Int_toString_nonneg c2 (by omega)] at h
  have hd := congrArg String.data h
  simp only [String.data_append] at hd
  have hd2 : (i1.data ++ '_' :: (Nat.repr c1.toNat).data) ++ '_' :: (Nat.repr a1.toNat).data
      = (i2.data ++ '_' :: (Nat.repr c2.toNat).data) ++ '_' :: (Nat.repr a2.toNat).data := by
    simpa [List.append_assoc, List.singleton_append, List.cons_append] using hd
  obtain ⟨hleft, hright⟩ := append_single_sep_inj '_' _ _ _ _
    (repr_no_underscore a1.toNat) (repr_no_underscore a2.toNat) hd2
  obtain ⟨hi, hc⟩ := append_single_sep_inj '_' _ _ _ _
    (repr_no_underscore c1.toNat) (repr_no_underscore c2.toNat) hleft
  refine ⟨?_, String.ext hi, ?_⟩
  · have := Nat_repr_inj a1.toNat a2.toNat (String.ext hright)
    omega
  · have := Nat_repr_inj c1.toNat c2.toNat (String.ext hc)
    omega

/-- C6 witness: injectivity applied at a concrete shape. -/
theorem C6_lookup_key_unique_witness :
    (500 : Int) = 500 ∧ "month" = "month" ∧ (1 : Int) = 1 :=
  C6_lookup_key_unique 500 500 1 1 "month" "month" (by decide) (by decide)
    (by decide) (by decide) rfl

/-! ### Idempotent resolution -/

/-- After replacing the matching-id element of a mirror with a price
that satisfies the query, the query finds that price when nothing
satisfied it before. -/
theorem find?_map_replace (p : PriceRec) (k : String) :
    ∀ (l : List PriceRec), (∀ q ∈ l, ¬((q.lookup_key == k && q.active) = true)) →
      l.any (fun q => q.id == p.id) = true →
      (p.lookup_key == k && p.active) = true →
      (l.map (fun q => if q.id == p.id then p else q)).find?
        (fun q => q.lookup_key == k && q.active) = some p := by
  intro l
  induction l with
  | nil => simp
  | cons q l ih =>
    intro hall hany hp
    simp only [List.map_cons, List.find?]
    by_cases hid : (q.id == p.id) = true
    · simp only [hid, if_pos, hp]
    · have hid2 : (q.id == p.id) = false := by
        simpa using hid
      have hq : (q.lookup_key == k && q.active) = false := by
        have := hall q (List.mem_cons_self q l)
        simpa using this
      have hany2 : l.any (fun r => r.id == p.id) = true := by
        have h3 := hany
        simp only [List.any_cons, hid2, Bool.false_or] at h3
        exact h3
      simp only [hid2, Bool.false_eq_true, if_false, hq]
      exact ih (fun r hr => hall r (List.mem_cons_of_mem q hr)) hany2 hp

/-- Appending a price that satisfies the query to a mirror in which
nothing satisfied it makes the query find the appended price. -/
theorem find?_append_self (p : PriceRec) (k : String) (l : List PriceRec)
    (hall : ∀ q ∈ l, ¬((q.lookup_key == k && q.active) = true))
    (hp : (p.lookup_key == k && p.active) = true) :
    (l ++ [p]).find? (fun q => q.lookup_key == k && q.active) = some p := by
  rw [List.find?_append]
  have hnone : l.find? (fun q => q.lookup_key == k && q.active) = none :=
    List.find?_eq_none.mpr hall
  simp [hnone, List.find?, hp]

/-- Syncing a matching active price into a mirror that had no matching
active price makes the local query find exactly that price. -/
theorem findLocalActive_sync (w : World) (p : PriceRec) (k : String)
    (hp : (p.lookup_key == k && p.active) = true)
    (hmiss : findLocalActive w k = none) :
    findLocalActive (syncFromStripeData w p) k = some p := by
  have hall := List.find?_eq_none.mp hmiss
  unfold syncFromStripeData findLocalActive
  by_cases hany : w.localPrices.any (fun q => q.id == p.id) = true
  · rw [if_pos hany]
    exact find?_map_replace p k w.localPrices hall hany hp
  · rw [if_neg hany]
    exact find?_append_self p k w.localPrices hall hp

/-- Creating a price on the Stripe side does not touch the local
mirror. -/
theorem findLocalActive_stripeCreate (w : World) (k k2 : String) :
    findLocalActive (stripeCreatePrice w k).2 k2 = findLocalActive w k2 := rfl

/-- C3: on a fault-free schedule, if `get_or_create_price` returns a
price id then calling it again in the resulting world returns the same
id, and the second call issues only the local mirror query: whatever
tier the first call resolved at, its synchronization guarantees the
second call hits the local-cache tier. -/
theorem C3_resolve_idempotent (s : Settings) (w : World)
    (amount_cents : Int) (interval : String) (interval_count : Int) (id1 : String)
    (h1 : (get_or_create_price s {} w amount_cents interval interval_count).1 = .ok id1) :
    (get_or_create_price s {}
        (get_or_create_price s {} w amount_cents interval interval_count).2.1
        amount_cents interval interval_count).1 = .ok id1
    ∧ (get_or_create_price s {}
        (get_or_create_price s {} w amount_cents interval interval_count).2.1
        amount_cents interval interval_count).2.2 =
      [CallEvent.localQuery (generate_lookup_key amount_cents interval interval_count)] := by
  rcases hv : validate_pricing_parameters s amount_cents interval interval_count with m | u
  · exfalso
    simp [get_or_create_price, hv] at h1
  · rcases hf : findLocalActive w (generate_lookup_key amount_cents interval interval_count)
      with _ | p
    · rcases hr : listRemoteActive w (generate_lookup_key amount_cents interval interval_count)
        with _ | ⟨p, rest⟩
      · rcases hp : s.STRIPE_PRODUCT_ID with _ | pid
        · exfalso
          simp [get_or_create_price, hv, hf, hr, tier3_create, hp] at h1
        · by_cases hpe : pid = ""
          · exfalso
            simp [get_or_create_price, hv, hf, hr, tier3_create, hp, hpe] at h1
          · have hres : get_or_create_price s {} w amount_cents interval interval_count =
                (.ok (stripeCreatePrice w (generate_lookup_key amount_cents interval interval_count)).1.id,
                 syncFromStripeData
                   (stripeCreatePrice w (generate_lookup_key amount_cents interval interval_count)).2
                   (stripeCreatePrice w (generate_lookup_key amount_cents interval interval_count)).1,
                 [CallEvent.localQuery (generate_lookup_key amount_cents interval interval_count),
                  CallEvent.stripeList (generate_lookup_key amount_cents interval interval_count),
                  CallEvent.stripeCreate pid amount_cents "usd" interval interval_count
                    (generate_lookup_key amount_cents interval interval_count) true
                    [("created_by", "charj_pricing_service"),
                     ("amount_cents", toString amount_cents),
                     ("interval", interval),
                     ("interval_count", toString interval_count)],
                  CallEvent.syncLocal
                    (stripeCreatePrice w (generate_lookup_key amount_cents interval interval_count)).1.id]) := by
              simp [get_or_create_price, hv, hf, hr, tier3_create, hp, hpe]
            rw [hres] at h1
            simp only [Outcome.ok.injEq] at h1
            have hpred : ((stripeCreatePrice w (generate_lookup_key amount_cents interval interval_count)).1.lookup_key
                == generate_lookup_key amount_cents interval interval_count &&
                (stripeCreatePrice w (generate_lookup_key amount_cents interval interval_count)).1.active) = true := by
              simp [stripeCreatePrice]
            have hmiss1 : findLocalActive
                (stripeCreatePrice w (generate_lookup_key amount_cents interval interval_count)).2
                (generate_lookup_key amount_cents interval interval_count) = none := by
              rw [findLocalActive_stripeCreate]
              exact hf
            have hfind := findLocalActive_sync _ _ _ hpred hmiss1
            rw [hres]
            constructor
            · simp [get_or_create_price, hv, hfind, h1]
            · simp [get_or_create_price, hv, hfind]
      · have hmem : p ∈ listRemoteActive w (generate_lookup_key amount_cents interval interval_count) := by
          rw [hr]
          exact List.mem_cons_self p rest
        have hpred : (p.lookup_key == generate_lookup_key amount_cents interval interval_count
            && p.active) = true := by
          have := List.mem_filter.mp hmem
          exact this.2
        have hres : get_or_create_price s {} w amount_cents interval interval_count =
            (.ok p.id, syncFromStripeData w p,
             [CallEvent.localQuery (generate_lookup_key amount_cents interval interval_count),
              CallEvent.stripeList (generate_lookup_key amount_cents interval interval_count),
              CallEvent.syncLocal p.id]) := by
          simp [get_or_create_price, hv, hf, hr]
        rw [hres] at h1
        simp only [Outcome.ok.injEq] at h1
        have hfind := findLocalActive_sync w p _ hpred hf
        rw [hres]
        constructor
        · simp [get_or_create_price, hv, hfind, h1]
        · simp [get_or_create_price, hv, hfind]
    · have hres : get_or_create_price s {} w amount_cents interval interval_count =
          (.ok p.id, w,
           [CallEvent.localQuery (generate_lookup_key amount_cents interval interval_count)]) := by
        simp [get_or_create_price, hv, hf]
      rw [hres] at h1
      simp only [Outcome.ok.injEq] at h1
      rw [hres]
      constructor
      · simp [get_or_create_price, hv, hf, h1]
      · simp [get_or_create_price, hv, hf]

/-- C3 witness: a first call that creates, followed by a second call that
hits the local cache with the same id. -/
theorem C3_resolve_idempotent_witness :
    (get_or_create_price { STRIPE_PRODUCT_ID := some "prod_123" } {}
        (get_or_create_price { STRIPE_PRODUCT_ID := some "prod_123" } {}
          { localPrices := [], remotePrices := [], nextId := 0 } 500 "month" 1).2.1
        500 "month" 1).1 = .ok "price_0"
    ∧ (get_or_create_price { STRIPE_PRODUCT_ID := some "prod_123" } {}
        (get_or_create_price { STRIPE_PRODUCT_ID := some "prod_123" } {}
          { localPrices := [], remotePrices := [], nextId := 0 } 500 "month" 1).2.1
        500 "month" 1).2.2 = [CallEvent.localQuery (generate_lookup_key 500 "month" 1)] :=
  C3_resolve_idempotent { STRIPE_PRODUCT_ID := some "prod_123" }
    { localPrices := [], remotePrices := [], nextId := 0 } 500 "month" 1 "price_0"
    (by decide)

/-! ### Tier ordering and failure policy -/

/-- The outcome of the creation tier depends only on the product
setting, the creation and final-sync fault entries, and the Stripe-side
state. -/
theorem tier3_create_fst_congr (s : Settings) (fs1 fs2 : FaultSchedule)
    (w1 w2 : World) (a : Int) (i : String) (c : Int) (k : String)
    (evts : List CallEvent)
    (hc : fs1.stripeCreate = fs2.stripeCreate)
    (hsy : fs1.syncCreated = fs2.syncCreated)
    (hr : w1.remotePrices = w2.remotePrices)
    (hn : w1.nextId = w2.nextId) :
    (tier3_create s fs1 w1 a i c k evts).1 = (tier3_create s fs2 w2 a i c k evts).1 := by
  simp only [tier3_create, stripeCreatePrice, hc, hsy, hr, hn]
  split
  · rfl
  · split
    · rfl
    · split <;> first | rfl | (split <;> rfl)

/-- C5 amended: the three tiers run in strict order.  A fault-free local
hit returns immediately with no processor call; a tier-1 failure is
swallowed and behaves as a cache miss; a fault-free remote find returns
its id after a mirror write-through, never reaching creation; a Stripe
error in the remote lookup is swallowed into the creation tier; but a
non-Stripe exception in the remote lookup propagates to the caller. -/
theorem C5_tier_order (s : Settings) (fs : FaultSchedule) (w : World)
    (a : Int) (i : String) (c : Int) (e : Exc) (p : PriceRec) (rest : List PriceRec)
    (m : String) :
    (validate_pricing_parameters s a i c = .ok () →
     fs.localQuery = none →
     findLocalActive w (generate_lookup_key a i c) = some p →
     get_or_create_price s fs w a i c =
       (.ok p.id, w, [CallEvent.localQuery (generate_lookup_key a i c)]))
    ∧ (fs.localQuery = some e →
       (get_or_create_price s fs w a i c).1 =
         (get_or_create_price s { fs with localQuery := none }
           { w with localPrices := [] } a i c).1)
    ∧ (validate_pricing_parameters s a i c = .ok () →
       fs.localQuery = none →
       findLocalActive w (generate_lookup_key a i c) = none →
       fs.stripeList = none →
       listRemoteActive w (generate_lookup_key a i c) = p :: rest →
       fs.syncRemote = none →
       get_or_create_price s fs w a i c =
         (.ok p.id, syncFromStripeData w p,
          [CallEvent.localQuery (generate_lookup_key a i c),
           CallEvent.stripeList (generate_lookup_key a i c),
           CallEvent.syncLocal p.id]))
    ∧ (validate_pricing_parameters s a i c = .ok () →
       fs.localQuery = none →
       findLocalActive w (generate_lookup_key a i c) = none →
       fs.stripeList = some (.stripeError m) →
       get_or_create_price s fs w a i c =
         tier3_create s fs w a i c (generate_lookup_key a i c)
           [CallEvent.localQuery (generate_lookup_key a i c),
            CallEvent.stripeList (generate_lookup_key a i c)])
    ∧ (validate_pricing_parameters s a i c = .ok () →
       fs.localQuery = none →
       findLocalActive w (generate_lookup_key a i c) = none →
       fs.stripeList = some (.otherError m) →
       (get_or_create_price s fs w a i c).1 = .raised (.otherError m)) := by
  refine ⟨?_, ?_, ?_, ?_, ?_⟩
  · intro hv hq hf
    simp [get_or_create_price, hv, hq, hf]
  · intro he
    rcases hv : validate_pricing_parameters s a i c with m2 | u
    · simp [get_or_create_price, hv]
    · have hf2 : findLocalActive { w with localPrices := [] }
          (generate_lookup_key a i c) = none := by
        simp [findLocalActive]
      simp only [get_or_create_price, hv, he, hf2]
      rcases hs : fs.stripeList with _ | exc
      · have hr2 : listRemoteActive { w with localPrices := [] }
            (generate_lookup_key a i c) =
            listRemoteActive w (generate_lookup_key a i c) := rfl
        simp only [hs, hr2]
        rcases hr : listRemoteActive w (generate_lookup_key a i c) with _ | ⟨q, tail⟩
        · exact tier3_create_fst_congr s fs _ w _ a i c _ _ rfl rfl rfl rfl
        · rcases hsync : fs.syncRemote with _ | exc2
          · simp only [hsync]
          · rcases exc2 with m3 | m3
            · simp only [hsync]
              exact tier3_create_fst_congr s fs _ w _ a i c _ _ rfl rfl rfl rfl
            · simp only [hsync]
      · rcases exc with m3 | m3
        · simp only [hs]
          exact tier3_create_fst_congr s fs _ w _ a i c _ _ rfl rfl rfl rfl
        · simp only [hs]
  · intro hv hq hf hs hr hsync
    simp [get_or_create_price, hv, hq, hf, hs, hr, hsync]
  · intro hv hq hf hs
    simp [get_or_create_price, hv, hq, hf, hs]
  · intro hv hq hf hs
    simp [get_or_create_price, hv, hq, hf, hs]

/-- C5 witness: the tier-1 hit conjunct at a concrete cached world. -/
theorem C5_tier_order_witness :
    get_or_create_price {} {}
      { localPrices := [{ id := "price_local", lookup_key := "month_1_500", active := true }],
        remotePrices := [], nextId := 0 } 500 "month" 1 =
      (.ok "price_local",
       { localPrices := [{ id := "price_local", lookup_key := "month_1_500", active := true }],
         remotePrices := [], nextId := 0 },
       [CallEvent.localQuery (generate_lookup_key 500 "month" 1)]) :=
  (C5_tier_order {} {}
      { localPrices := [{ id := "price_local", lookup_key := "month_1_500", active := true }],
        remotePrices := [], nextId := 0 } 500 "month" 1 (.otherError "")
      { id := "price_local", lookup_key := "month_1_500", active := true } [] "").1
    (by decide) rfl (by decide)

end Charj
